import Mathlib

/-!
Verification development for the `sbp_sat_geophysics_2022` reproducibility
package.  The repository consists of a Jupyter notebook driving the Devito
finite-difference engine (`notebooks/2e_Devito.ipynb`), two SPECFEM2D mesh
interface description files, and Dockerfiles building the external tools.
This file shallowly embeds those artifacts: the notebook's numeric
parameters and array constructions become Lean functions over `ℚ`/`ℝ`,
the mesh files are embedded verbatim as lists of text lines together with
a tokenizer and parser for the SPECFEM2D interface format, the Dockerfiles
become lists of instructions, and the notebook's cell-by-cell execution is
modelled as an explicit list of steps.
-/

namespace SbpSat

/-! ## Notebook model-grid parameters

From `notebooks/2e_Devito.ipynb`, cell "Model grid: 6000 m x 4080 m, with
spacing 5 m".  The floating point scalars of the notebook are embedded as
rationals (their values are exact decimals). -/

def xmax : ℚ := 6000
def zmax : ℚ := 4080 + 1000
def dx : ℚ := 5
def dz : ℚ := 5
def nx : ℕ := 1201
def nz : ℕ := 817 + 200
def nza : ℕ := 240

def sx : ℚ := 2400
def sz : ℚ := 1120
def rx : ℚ := 3440
def rz : ℚ := 1200

/-- The notebook assignment `extent = (xmax, zmax)`. -/
def extent : ℚ × ℚ := (xmax, zmax)

/-- The notebook assignment `shape = (nx, nz)`. -/
def shape : ℕ × ℕ := (nx, nz)

/-- The notebook assignment `spacing = (dx, dz)`. -/
def spacing : ℚ × ℚ := (dx, dz)

/-! Material values: `vpa`/`vsa`/`rhoa` are the acoustic (water) values and
`vpe`/`vse`/`rhoe` the elastic ones, exactly as assigned in the notebook. -/

def vpa : ℚ := 3/2
def vsa : ℚ := 0
def rhoa : ℚ := 1
def vpe : ℚ := 3
def vse : ℚ := 1
def rhoe : ℚ := 5/2

/-- The per-component elastic value: component 0 is `vp`, 1 is `vs`,
2 is `rho`, mirroring the first index of the numpy array `aemodel`. -/
def elasticVal : Fin 3 → ℚ
  | 0 => vpe
  | 1 => vse
  | 2 => rhoe

/-- The per-component acoustic value. -/
def acousticVal : Fin 3 → ℚ
  | 0 => vpa
  | 1 => vsa
  | 2 => rhoa

/-- The initial array `aemodel = np.zeros((3, nx, nz))`. -/
def aemodelStage0 : Fin 3 → ℕ → ℕ → ℚ := fun _ _ _ => 0

/-- After the full-slice writes `aemodel[0,:,:] = vpe`, `aemodel[1,:,:] = vse`,
`aemodel[2,:,:] = rhoe` (the elastic layer). -/
def aemodelStage1 : Fin 3 → ℕ → ℕ → ℚ := fun c _ _ => elasticVal c

/-- After the acoustic-layer writes `aemodel[c,:,:nza] = ...`, which touch the
depth indices `z < nza`. -/
def aemodelStage2 (c : Fin 3) (x z : ℕ) : ℚ :=
  if z < nza then acousticVal c else aemodelStage1 c x z

/-- The final material array, after the interface-row writes
`aemodel[c,:,nza] = ...` ("values at the interface same as the fluid"). -/
def aemodel (c : Fin 3) (x z : ℕ) : ℚ :=
  if z = nza then acousticVal c else aemodelStage2 c x z

/-- The shear modulus `mu = aemodel[2] * aemodel[1] * aemodel[1]`. -/
def mu (x z : ℕ) : ℚ := aemodel 2 x z * aemodel 1 x z * aemodel 1 x z

/-- The Lame parameter `lam = aemodel[2] * aemodel[0] * aemodel[0] - 2*mu`. -/
def lam (x z : ℕ) : ℚ := aemodel 2 x z * aemodel 0 x z * aemodel 0 x z - 2 * mu x z

/-- The buoyancy `b = 1 / aemodel[2]`. -/
def b (x z : ℕ) : ℚ := 1 / aemodel 2 x z

/-! ## Notebook time axis and source wavelet

From the cell "Source wavelet (derivative of Ricker)". -/

def nt : ℕ := 5001
def dt : ℚ := 1/2
def ot : ℚ := 0

/-- The start time, from `t0, tn = ot, (nt-1)*dt`. -/
def t0 : ℚ := ot

def tn : ℚ := ((nt : ℚ) - 1) * dt

/-- A Devito `TimeAxis` as constructed by `TimeAxis(start, stop, step)`. -/
structure TimeAxisT where
  start : ℚ
  stop : ℚ
  step : ℚ
deriving DecidableEq

/-- The notebook time axis `time_range = TimeAxis(start=t0, stop=tn, step=dt)`. -/
def time_range : TimeAxisT := ⟨t0, tn, dt⟩

/-- The number of samples Devito's `TimeAxis` computes when `start`, `stop`
and `step` are given: `num = int(np.ceil((stop - start + step)/step))`
(from `examples/seismic/source.py` of Devito). -/
def timeAxisNum (a : TimeAxisT) : ℤ := ⌈(a.stop - a.start + a.step) / a.step⌉

/-- The corner frequency `wc = 0.01`. -/
def wc : ℚ := 1/100

/-- The wavelet width `sigma = math.sqrt(2)/(math.pi*wc)`. -/
noncomputable def sigma : ℝ := Real.sqrt 2 / (Real.pi * (1/100))

/-- The wavelet `scipy.signal.ricker(points, a)` evaluated at integer index `i`:
`vec = arange(0, points) - (points - 1.0)/2`, and the wavelet is
`2/(sqrt(3a) * pi**0.25) * (1 - vec**2/a**2) * exp(-vec**2/(2*a**2))`. -/
noncomputable def ricker (points : ℕ) (a : ℝ) (i : ℕ) : ℝ :=
  (2 / (Real.sqrt (3 * a) * Real.pi ^ ((1 : ℝ)/4))) *
    (1 - ((i : ℝ) - ((points : ℝ) - 1)/2) ^ 2 / a ^ 2) *
    Real.exp (-(((i : ℝ) - ((points : ℝ) - 1)/2) ^ 2) / (2 * a ^ 2))

/-- The sliced wavelet `src1 = signal.ricker(2*nt-1, sigma)[4750:4750+nt]`,
as a function of the index into the slice. -/
noncomputable def src1 (i : ℕ) : ℝ := ricker (2 * nt - 1) sigma (4750 + i)

/-- Length of the numpy basic slice `a[start:stop]` of an array of length
`len` (with `0 ≤ start ≤ stop`): numpy clamps both bounds to `len`. -/
def sliceLen (start stop len : ℕ) : ℕ := min stop len - min start len

/-- The maximum `np.max(src1)` over the `nt` samples of the slice. -/
noncomputable def src1Max : ℝ :=
  Finset.sup' (Finset.range nt) (Finset.nonempty_range_iff.mpr (by decide)) src1

/-! ## Notebook receivers and saved output

From the cells "The source injection term" / "save to numpy". -/

/-- The receiver count per Receiver object, `nrec = 1`. -/
def nrec : ℕ := 1

/-- The shape of the persisted array, from `allrec = np.zeros((3, nt))`. -/
def allrecShape : ℕ × ℕ := (3, nt)

/-- The array `np.zeros((3, nt))` as a function of (row, time step). -/
def allrecInit : ℕ → ℕ → ℝ := fun _ _ => 0

/-- Row assignment `A[i] = row` on a (row, time)-indexed array. -/
def setRow (A : ℕ → ℕ → ℝ) (i : ℕ) (row : ℕ → ℝ) : ℕ → ℕ → ℝ :=
  fun j t => if j = i then row t else A j t

/-- The saved array: `allrec[0] = -rec1.T`, `allrec[1] = rec2.T`,
`allrec[2] = rec3.T`, where `rec1/rec2/rec3` are the receiver traces
produced by the external engine (abstracted as functions of the step). -/
def allrec (r1 r2 r3 : ℕ → ℝ) : ℕ → ℕ → ℝ :=
  setRow (setRow (setRow allrecInit 0 (fun t => -(r1 t))) 1 r2) 2 r3

/-! ## The notebook's straight-line control flow

The notebook contains no `try`/`except` and no conditional branching: every
cell is a straight-line sequence of statements, each invoking an external
library.  Its control flow is therefore a sequential composition where any
exception raised by an external call aborts the run.  `notebookRun`
captures this with `Except`: each external stage may fail, and the run
threads them with no handler. -/

def notebookRun {E M S O R A : Type} (buildModel : Except E M)
    (buildSource : M → Except E S) (buildOperator : M → S → Except E O)
    (applyOperator : O → Except E R) (saveResult : R → Except E A) :
    Except E A :=
  match buildModel with
  | .error e => .error e
  | .ok m =>
    match buildSource m with
    | .error e => .error e
    | .ok s =>
      match buildOperator m s with
      | .error e => .error e
      | .ok o =>
        match applyOperator o with
        | .error e => .error e
        | .ok r => saveResult r

/-! ## The notebook as an ordered trace of steps

`notebookTrace` lists, in source order, every statement of the notebook
that the claims are about (with auxiliary statements such as imports,
plotting, and symbolic setup included as untagged steps).  The payloads
record the parameters the statement passes. -/

/-- Physical quantity a receiver interpolates or a source injects into. -/
inductive Quantity
  | stressXX
  | stressZZ
  | velX
  | velZ
deriving DecidableEq

/-- One statement of the notebook relevant to the claims. -/
inductive Step
  | loadLibraries
  | makeDirs
  | defineGridParams
  | buildMaterialModel
  | buildSeismicModel
  | defineTimeAxis (ax : TimeAxisT)
  | buildSource (ax : TimeAxisT)
  | buildSourceWavelet
  | setSourceData
  | setSourceCoords (cx cz : ℚ)
  | plotSource
  | buildWavefields
  | defineFreeSurface
  | buildInjection (q : Quantity)
  | buildReceiver (idx : ℕ) (ax : TimeAxisT)
  | setReceiverCoords (idx : ℕ) (cx cz : ℚ)
  | buildInterpolation (idx : ℕ) (q : Quantity)
  | definePDE
  | buildOperator
  | applyOperator (dtArg : ℚ)
  | allocResultArray (rows cols : ℕ)
  | extractRow (row recIdx : ℕ) (negated : Bool)
  | saveArray (path : String)
deriving DecidableEq

/-- The notebook `2e_Devito.ipynb`, cell by cell and statement by
statement, in execution order. -/
def notebookTrace : List Step := [
  -- cell 1: imports
  .loadLibraries,
  -- cell 2: !mkdir -p ../dat ../fig
  .makeDirs,
  -- cell 3: grid constants, aemodel / mu / lam / b, SeismicModel(...)
  .defineGridParams,
  .buildMaterialModel,
  .buildSeismicModel,
  -- cell 4: time_range, RickerSource, src1 wavelet, src.data, src.coordinates
  .defineTimeAxis time_range,
  .buildSource time_range,
  .buildSourceWavelet,
  .setSourceData,
  .setSourceCoords sx sz,
  -- cell 5: plt.plot of the source
  .plotSource,
  -- cell 6: VectorTimeFunction / TensorTimeFunction
  .buildWavefields,
  -- cell 7: free-surface boundary equations
  .defineFreeSurface,
  -- cell 8: src.inject into tau[0,0] and tau[1,1]; receivers; interpolations
  .buildInjection .stressXX,
  .buildInjection .stressZZ,
  .buildReceiver 1 time_range,
  .setReceiverCoords 1 rx rz,
  .buildReceiver 2 time_range,
  .setReceiverCoords 2 rx rz,
  .buildReceiver 3 time_range,
  .setReceiverCoords 3 rx rz,
  .buildInterpolation 1 .stressXX,
  .buildInterpolation 2 .velX,
  .buildInterpolation 3 .velZ,
  -- cell 9: first-order elastic PDE and Operator(...)
  .definePDE,
  .buildOperator,
  -- cell 10: op.apply(dt=dt)
  .applyOperator dt,
  -- cell 11: allrec = np.zeros((3,nt)); row extraction; np.save
  .allocResultArray 3 nt,
  .extractRow 0 1 true,
  .extractRow 1 2 false,
  .extractRow 2 3 false,
  .saveArray "../dat/devito2"
]

/-- The pipeline phase of a step, following the spec's five-step
description: 1 = define physical model, 2 = source/receiver geometry and
source time function, 3 = invoke the external engine, 4 = extract
time-series outputs, 5 = persist to disk.  Auxiliary steps get `none`. -/
def phase : Step → Option ℕ
  | .defineGridParams => some 1
  | .buildMaterialModel => some 1
  | .buildSeismicModel => some 1
  | .defineTimeAxis _ => some 2
  | .buildSource _ => some 2
  | .buildSourceWavelet => some 2
  | .setSourceData => some 2
  | .setSourceCoords _ _ => some 2
  | .buildReceiver _ _ => some 2
  | .setReceiverCoords _ _ _ => some 2
  | .applyOperator _ => some 3
  | .extractRow _ _ _ => some 4
  | .saveArray _ => some 5
  | _ => none

/-- The `TimeAxis` argument a step passes to a Devito constructor, when it
passes one. -/
def axisOfStep : Step → Option TimeAxisT
  | .defineTimeAxis ax => some ax
  | .buildSource ax => some ax
  | .buildReceiver _ ax => some ax
  | _ => none

/-- Is this step the assignment of the source coordinates? -/
def isSetSourceCoords : Step → Bool
  | .setSourceCoords _ _ => true
  | _ => false

/-- Is this step a receiver-data extraction into a row of `allrec`? -/
def isExtractRow : Step → Bool
  | .extractRow _ _ _ => true
  | _ => false

/-- Is this step a receiver interpolation term? -/
def isInterpolation : Step → Bool
  | .buildInterpolation _ _ => true
  | _ => false

/-- Is this step a `np.save` call? -/
def isSaveStep : Step → Bool
  | .saveArray _ => true
  | _ => false

/-! ## SPECFEM2D mesh interface files

The two mesh description files of the repository, embedded verbatim, one
string per text line: `specfem2d/interface2.p` and the unnamed mesh
interface file (`src/unnamed/part_000`). -/

def interface2Lines : List String := [
  "#",
  "# number of interfaces",
  "#",
  " 3",
  "#",
  "# for each interface below, we give the number of points and then x,z for each point",
  "#",
  "#",
  "# interface number 1 (bottom of the mesh)",
  "#",
  " 2",
  " 0 0",
  " 6000 0",
  "#",
  "# interface number 2 (ocean bottom)",
  "#",
  " 2",
  "    0 2880",
  " 6000 2880",
  "#",
  "# interface number 3 (topography, top of the mesh)",
  "#",
  " 2",
  "    0 4080",
  " 6000 4080",
  "#",
  "# for each layer, we give the number of spectral elements in the vertical direction",
  "#",
  "#",
  "# layer number 1 (bottom layer)",
  "#",
  "## DK DK the original 2000 Geophysics paper used nz = 90 but NGLLZ = 6",
  "## DK DK here I rescale it to nz = 108 and NGLLZ = 5 because nowadays we almost always use NGLLZ = 5",
  " 72",
  "#",
  "# layer number 2 (top layer)",
  "#",
  " 30"
]

def part000Lines : List String := [
  "#",
  "# number of interfaces",
  "#",
  " 3",
  "#",
  "# for each interface below, we give the number of points and then x,z for each point",
  "#",
  "#",
  "# interface number 1 (bottom of the mesh)",
  "#",
  " 2",
  " 0 0",
  " 5920 0",
  "#",
  "# interface number 2 (ocean bottom)",
  "#",
  " 2",
  "    0 2880",
  " 5920 2880",
  "#",
  "# interface number 3 (topography, top of the mesh)",
  "#",
  " 2",
  "    0 4000",
  " 5920 4000",
  "#",
  "# for each layer, we give the number of spectral elements in the vertical direction",
  "#",
  "#",
  "# layer number 1 (bottom layer)",
  "#",
  "## DK DK the original 2000 Geophysics paper used nz = 90 but NGLLZ = 6",
  "## DK DK here I rescale it to nz = 108 and NGLLZ = 5 because nowadays we almost always use NGLLZ = 5",
  " 144",
  "#",
  "# layer number 2 (top layer)",
  "#",
  " 56"
]

/-! ### Tokenizer for the line-oriented format

Comment lines begin with `#` and are ignored; the remaining lines are a
whitespace-separated stream of integers. -/

def isWSChar (c : Char) : Bool := c = ' ' || c = '\t' || c = '\r'

/-- Split a line into maximal whitespace-free tokens (`acc` holds the
current token, reversed). -/
def splitTokens : List Char → List Char → List (List Char)
  | [], acc => if acc = [] then [] else [acc.reverse]
  | c :: cs, acc =>
    if isWSChar c then
      (if acc = [] then splitTokens cs [] else acc.reverse :: splitTokens cs [])
    else splitTokens cs (c :: acc)

def natFromChars : List Char → ℕ → Option ℕ
  | [], acc => some acc
  | c :: cs, acc => if c.isDigit then natFromChars cs (acc * 10 + (c.toNat - 48)) else none

def intFromChars : List Char → Option ℤ
  | [] => none
  | '-' :: cs => if cs = [] then none else (natFromChars cs 0).map (fun n => -(n : ℤ))
  | cs => (natFromChars cs 0).map (fun n => (n : ℤ))

/-- A line is a comment when its first character is `#`. -/
def isCommentLine (l : String) : Bool :=
  match l.data with
  | '#' :: _ => true
  | _ => false

def lineTokens (l : String) : List ℤ := (splitTokens l.data []).filterMap intFromChars

/-- The integer token stream of a mesh file: comment lines dropped, the
rest tokenized. -/
def fileTokens (lines : List String) : List ℤ :=
  (lines.filter (fun l => ! isCommentLine l)).flatMap lineTokens

/-! ### Parser for the SPECFEM2D interface format -/

/-- A parsed mesh interface file: the interface count, for each interface
its list of (x, z) points, and one spectral-element count per layer. -/
structure MeshFile where
  nInterfaces : ℕ
  interfaces : List (List (ℤ × ℤ))
  layerCounts : List ℤ
deriving DecidableEq

def intToNatOpt : ℤ → Option ℕ
  | .ofNat n => some n
  | .negSucc _ => none

/-- Read `k` coordinate pairs from the token stream. -/
def readPairs : ℕ → List ℤ → Option (List (ℤ × ℤ) × List ℤ)
  | 0, ts => some ([], ts)
  | k + 1, x :: z :: ts =>
    (readPairs k ts).map (fun r => ((x, z) :: r.1, r.2))
  | _ + 1, _ => none

/-- Read `n` interfaces, each a point count followed by that many pairs. -/
def readInterfaces : ℕ → List ℤ → Option (List (List (ℤ × ℤ)) × List ℤ)
  | 0, ts => some ([], ts)
  | n + 1, c :: ts => do
    let k ← intToNatOpt c
    let ps ← readPairs k ts
    let rest ← readInterfaces n ps.2
    some (ps.1 :: rest.1, rest.2)
  | _ + 1, [] => none

/-- Read `n` per-layer element counts. -/
def readCounts : ℕ → List ℤ → Option (List ℤ × List ℤ)
  | 0, ts => some ([], ts)
  | n + 1, c :: ts => (readCounts n ts).map (fun r => (c :: r.1, r.2))
  | _ + 1, [] => none

/-- Parse a token stream as a mesh interface file: a first value `N`
(the interface count, at least 1), then `N` interfaces (a point count
followed by exactly that many x,z pairs each), then one element count for
each of the `N - 1` layers, and nothing else. -/
def parseMesh (ts : List ℤ) : Option MeshFile :=
  match ts with
  | [] => none
  | n :: rest => do
    let nn ← intToNatOpt n
    if nn = 0 then none else
      let is ← readInterfaces nn rest
      let cs ← readCounts (nn - 1) is.2
      if cs.2 = [] then some ⟨nn, is.1, cs.1⟩ else none

/-- Parse a mesh file given as its list of lines. -/
def parseMeshLines (lines : List String) : Option MeshFile :=
  parseMesh (fileTokens lines)

/-! ### Derived mesh geometry -/

def listMinD : List ℤ → ℤ
  | [] => 0
  | x :: xs => xs.foldl min x

def listMaxD : List ℤ → ℤ
  | [] => 0
  | x :: xs => xs.foldl max x

/-- All points of all interfaces of a mesh file. -/
def meshPoints (m : MeshFile) : List (ℤ × ℤ) := m.interfaces.flatMap id

/-- Representative z of an interface (its first point's z). -/
def interfaceZ (ps : List (ℤ × ℤ)) : ℤ := (ps.headD (0, 0)).2

/-- The z values of the interfaces, bottom to top in file order. -/
def interfaceZs (m : MeshFile) : List ℤ := m.interfaces.map interfaceZ

/-- An interface is horizontal when all its points share one z value. -/
def interfaceHorizontal (ps : List (ℤ × ℤ)) : Bool :=
  match ps with
  | [] => true
  | p :: rest => rest.all (fun q => q.2 = p.2)

def strictIncreasing : List ℤ → Bool
  | [] => true
  | [_] => true
  | a :: bl :: rest => a < bl && strictIncreasing (bl :: rest)

/-- The horizontal range spanned by the mesh points. -/
def meshXRange (m : MeshFile) : ℤ × ℤ :=
  (listMinD ((meshPoints m).map Prod.fst), listMaxD ((meshPoints m).map Prod.fst))

/-- The vertical range spanned by the mesh interfaces. -/
def meshZRange (m : MeshFile) : ℤ × ℤ :=
  (listMinD (interfaceZs m), listMaxD (interfaceZs m))

/-- Layer gaps: for consecutive interfaces, the thickness of the layer
between them. -/
def layerGaps : List ℤ → List ℤ
  | [] => []
  | [_] => []
  | a :: bl :: rest => (bl - a) :: layerGaps (bl :: rest)

/-- Every layer of `m` has element height `h`: the gap between consecutive
interfaces equals `h` times the layer's element count, one count per gap. -/
def uniformElementHeight (m : MeshFile) (h : ℤ) : Bool :=
  (layerGaps (interfaceZs m)).length = m.layerCounts.length &&
    ((layerGaps (interfaceZs m)).zip m.layerCounts).all (fun g => g.1 = h * g.2)

/-- The geometric invariants of a mesh file, as one decidable check: it
parses, every interface is horizontal, interface z values strictly
increase bottom to top, there is one element count per gap between
consecutive interfaces, and every layer has element height `h`. -/
def meshGeometryOk (lines : List String) (h : ℤ) : Bool :=
  match parseMeshLines lines with
  | none => false
  | some m =>
    m.interfaces.all interfaceHorizontal &&
      strictIncreasing (interfaceZs m) &&
      (m.layerCounts.length == m.nInterfaces - 1) &&
      uniformElementHeight m h

/-- The mesh file parsed from `interface2.p` (default irrelevant: parsing
succeeds, see the conformance theorem). -/
def interface2Mesh : MeshFile := (parseMeshLines interface2Lines).getD ⟨0, [], []⟩

/-- The mesh file parsed from the unnamed interface file. -/
def part000Mesh : MeshFile := (parseMeshLines part000Lines).getD ⟨0, [], []⟩

/-! ## Comparing the Devito domain with the mesh domains (claim C1)

The Devito grid covers `x ∈ [0, (nx-1)*dx]` and `z ∈ [0, (nz-1)*dz]`
(origin `(0,0)`, `SeismicModel(origin=origin, ..., shape=shape,
spacing=spacing, ...)`). -/

def devitoXRange : ℚ × ℚ := (0, ((nx : ℚ) - 1) * dx)

def devitoZRange : ℚ × ℚ := (0, ((nz : ℚ) - 1) * dz)

/-- A mesh range as a pair of rationals, for comparison with the notebook
values. -/
def rangeQ (r : ℤ × ℤ) : ℚ × ℚ := ((r.1 : ℚ), (r.2 : ℚ))

/-- The property claim C1 asserts, written from the spec's words: the
rectangular domain of the Devito notebook coincides with the domain of
each of the two SPECFEM2D mesh interface files. -/
def specDomainsIdentical : Prop :=
  devitoXRange = rangeQ (meshXRange interface2Mesh) ∧
  devitoZRange = rangeQ (meshZRange interface2Mesh) ∧
  devitoXRange = rangeQ (meshXRange part000Mesh) ∧
  devitoZRange = rangeQ (meshZRange part000Mesh)

/-! ## Dockerfiles

The repository contains two Dockerfile versions: `src/Dockerfile` and the
unnamed variant (`src/unnamed/part_001`).  Each is embedded as a list of
instructions; a `RUN a && b && c` step becomes `.run [a, b, c]` with each
shell command kept verbatim. -/

inductive DockerInstr
  | fromBase (img : String)
  | maintainer (who : String)
  | run (cmds : List String)
  | add (src dst : String)
  | workdir (dir : String)
  | env (key value : String)
  | expose (port : ℕ)
deriving DecidableEq

def srcDockerfile : List DockerInstr := [
  .fromBase "ubuntu:18.04 as builder",
  .maintainer "nmbader@sep.stanford.edu",
  .run ["apt-get -y update"],
  .run ["apt-get -y install build-essential"],
  .run ["apt-get -y install libelf-dev libffi-dev"],
  .run ["apt-get -y install pkg-config"],
  .run ["apt-get -y install wget git gcc g++ gfortran make cmake vim lsof"],
  .run ["apt-get -y install flex libxaw7-dev"],
  .run ["apt-get -y install libfftw3-3 libfftw3-dev libssl-dev"],
  .run ["apt-get -y  install python3-pip"],
  .run ["python3 -m pip install --no-cache-dir --upgrade pip"],
  .run ["python3 -m pip install --no-cache-dir numpy",
        "python3 -m pip install --no-cache-dir jupyter",
        "python3 -m pip install --no-cache-dir scipy",
        "python3 -m pip install --no-cache-dir matplotlib"],
  .run ["mkdir -p /opt/ispc/bin"],
  .run ["mkdir -p /home"],
  .run ["mkdir -p /home/sbp_sat_geophysics_2022"],
  .workdir "/home",
  .run ["wget https://github.com/ispc/ispc/releases/download/v1.17.0/ispc-v1.17.0-linux.tar.gz",
        "tar -xvf ispc-v1.17.0-linux.tar.gz",
        "cp ispc-v1.17.0-linux/bin/ispc /opt/ispc/bin/",
        "rm -f ispc-v1.17.0-linux.tar.gz",
        "rm -rf ispc-v1.17.0-linux"],
  .run ["cd /opt",
        "git clone https://github.com/nmbader/fwi2d.git",
        "cd fwi2d",
        "git checkout 1b20e7ee0bbe06eb43cbee18c91d7ed29809a8e4",
        "mkdir -p build local",
        "cd external/SEP",
        "bash ./buildit.sh",
        "cd ../../build",
        "cmake -DCMAKE_INSTALL_PREFIX=../local -DISPC=/opt/ispc/bin/ispc ../",
        "make -j12",
        "make install",
        "cd ../",
        "rm -rf build"],
  .run ["cd /opt",
        "git clone --recursive --branch devel https://github.com/geodynamics/specfem2d.git",
        "cd specfem2d",
        "./configure FC=gfortran CC=gcc",
        "make"],
  .add "notebooks" "/home/sbp_sat_geophysics_2022/notebooks",
  .add "specfem2d" "/home/sbp_sat_geophysics_2022/specfem2d",
  .add "README.md" "/home/sbp_sat_geophysics_2022",
  .run ["ls -s /opt/specfem2d/bin/xmeshfem2D /home/sbp_sat_geophysics_2022/specfem2d"],
  .run ["ls -s /opt/specfem2d/bin/xspecfem2d /home/sbp_sat_geophysics_2022/specfem2d"],
  .run ["apt-get -y clean"],
  .env "HOME" "/home",
  .env "PATH" "/opt/fwi2d/bin:${PATH}",
  .env "DATAPATH" "/tmp/",
  .run ["echo \x27alias python=python3\x27 >> ~/.bashrc"]
]

def part001Dockerfile : List DockerInstr := [
  .fromBase "ubuntu:18.04 as builder",
  .maintainer "nmbader@sep.stanford.edu",
  .run ["apt-get -y update"],
  .run ["apt-get -y install build-essential"],
  .run ["apt-get -y install libelf-dev libffi-dev"],
  .run ["apt-get -y install pkg-config"],
  .run ["apt-get -y install wget git gcc g++ gfortran make cmake vim lsof"],
  .run ["apt-get -y install flex libxaw7-dev"],
  .run ["apt-get -y install libfftw3-3 libfftw3-dev libssl-dev"],
  .run ["apt-get -y  install python3-pip"],
  .run ["python3 -m pip install --no-cache-dir --upgrade pip"],
  .run ["python3 -m pip install --no-cache-dir numpy",
        "python3 -m pip install --no-cache-dir jupyter",
        "python3 -m pip install --no-cache-dir scipy",
        "python3 -m pip install --no-cache-dir wheel",
        "python3 -m pip install --no-cache-dir matplotlib"],
  .run ["mkdir -p /opt/ispc/bin"],
  .run ["mkdir -p /home"],
  .run ["mkdir -p /home/sbp_sat_geophysics_2022"],
  .workdir "/home",
  .run ["cd /opt",
        "git clone --recursive --branch devel https://github.com/geodynamics/specfem2d.git",
        "cd /opt/specfem2d",
        "./configure FC=gfortran CC=gcc",
        "make"],
  .run ["cd /opt",
        "git clone https://github.com/devitocodes/devito.git",
        "cd devito",
        "rm -rf .git",
        "python3 -m pip install --no-cache-dir -e /opt/devito[extras]"],
  .run ["wget https://github.com/ispc/ispc/releases/download/v1.17.0/ispc-v1.17.0-linux.tar.gz",
        "tar -xvf ispc-v1.17.0-linux.tar.gz",
        "cp ispc-v1.17.0-linux/bin/ispc /opt/ispc/bin/",
        "rm -f ispc-v1.17.0-linux.tar.gz",
        "rm -rf ispc-v1.17.0-linux"],
  .run ["cd /opt",
        "git clone https://github.com/nmbader/fwi2d.git",
        "cd fwi2d",
        "git checkout 4eaafedea7f58a944c5278661d6f59ec5548799b",
        "mkdir -p build",
        "cd external/SEP",
        "bash ./buildit.sh",
        "cd ../../build",
        "cmake -DCMAKE_INSTALL_PREFIX=/opt/fwi2d/ -DISPC=/opt/ispc/bin/ispc ../",
        "make -j",
        "make install",
        "cd ../",
        "rm -rf build"],
  .add "notebooks" "/home/sbp_sat_geophysics_2022/notebooks",
  .add "specfem2d" "/home/sbp_sat_geophysics_2022/specfem2d",
  .add "README.md" "/home/sbp_sat_geophysics_2022",
  .run ["cp /opt/specfem2d/bin/xmeshfem2D /home/sbp_sat_geophysics_2022/specfem2d"],
  .run ["cp /opt/specfem2d/bin/xspecfem2D /home/sbp_sat_geophysics_2022/specfem2d"],
  .run ["rm -rf /opt/specfem2d"],
  .run ["apt-get -y clean"],
  .env "HOME" "/home",
  .env "PATH" "/opt/fwi2d/bin:${PATH}",
  .env "DATAPATH" "/tmp/",
  .env "DEVITO_ARCH" "gcc",
  .env "DEVITO_LANGUAGE" "openmp",
  .run ["echo \x27alias python=python3\x27 >> ~/.bashrc"]
]

/-! ### Dockerfile analysis -/

/-- Whether the char list `p` is an initial segment of `s`. -/
def begins : List Char → List Char → Bool
  | [], _ => true
  | _ :: _, [] => false
  | c :: cs, d :: ds => c = d && begins cs ds

def strBegins (p s : String) : Bool := begins p.data s.data

/-- Whether `p` occurs as a contiguous substring of `s`. -/
def hasSub (p : List Char) : List Char → Bool
  | [] => begins p []
  | c :: cs => begins p (c :: cs) || hasSub p cs

def strHasSub (p s : String) : Bool := hasSub p.data s.data

def isCloneCmd (s : String) : Bool := strBegins "git clone" s

def isHexChar (c : Char) : Bool := c.isDigit || ('a' ≤ c && c ≤ 'f')

/-- Drop the initial segment `p` from `s`, when `s` begins with it. -/
def dropBegin : List Char → List Char → Option (List Char)
  | [], s => some s
  | _ :: _, [] => none
  | c :: cs, d :: ds => if c = d then dropBegin cs ds else none

/-- A shell command pinning a repository: `git checkout <40 hex chars>`. -/
def isCheckoutHashCmd (s : String) : Bool :=
  match dropBegin ("git checkout ".data) s.data with
  | some rest => rest.length == 40 && rest.all isHexChar
  | none => false

def runCmdsOf : DockerInstr → List String
  | .run cs => cs
  | _ => []

/-- All shell commands of all RUN instructions, in order. -/
def allCmds (d : List DockerInstr) : List String := d.flatMap runCmdsOf

/-- The `git clone` commands of a Dockerfile. -/
def cloneCmds (d : List DockerInstr) : List String := (allCmds d).filter isCloneCmd

/-- For each RUN block containing a `git clone`, the pair of its clone
commands and its commit-hash checkout commands. -/
def cloneBlocks (d : List DockerInstr) : List (List String × List String) :=
  (d.map runCmdsOf).filterMap (fun cs =>
    if cs.any isCloneCmd then some (cs.filter isCloneCmd, cs.filter isCheckoutHashCmd)
    else none)

def isExposeInstr : DockerInstr → Bool
  | .expose _ => true
  | _ => false

def hasExpose (d : List DockerInstr) : Bool := d.any isExposeInstr

/-- The property claim C2 asserts of a Dockerfile, written from the spec's
words: it clones exactly three external repositories, every RUN block
performing a clone also pins with a commit-hash checkout, and a port is
exposed for the notebook server. -/
def specPinnedTripleBuild (d : List DockerInstr) : Prop :=
  (cloneCmds d).length = 3 ∧
  (∀ p ∈ cloneBlocks d, p.2 ≠ []) ∧
  hasExpose d = true

instance (d : List DockerInstr) : Decidable (specPinnedTripleBuild d) :=
  inferInstanceAs (Decidable ((cloneCmds d).length = 3 ∧
    (∀ p ∈ cloneBlocks d, p.2 ≠ []) ∧ hasExpose d = true))

/-- The phase list is nondecreasing (the five pipeline steps never run out
of order). -/
def sortedNondec : List ℕ → Bool
  | [] => true
  | [_] => true
  | a :: c :: rest => a ≤ c && sortedNondec (c :: rest)

/-! ## Helper lemmas -/

theorem sigma_pos : 0 < sigma := by
  unfold sigma
  positivity

theorem rickerAmp_pos : 0 < 2 / (Real.sqrt (3 * sigma) * Real.pi ^ ((1 : ℝ)/4)) := by
  have h1 : 0 < Real.sqrt (3 * sigma) :=
    Real.sqrt_pos.mpr (by have := sigma_pos; linarith)
  have h2 : 0 < Real.pi ^ ((1 : ℝ)/4) := Real.rpow_pos_of_pos Real.pi_pos _
  exact div_pos (by norm_num) (mul_pos h1 h2)

/-- At index 5000, the centre of the 10001-sample wavelet, the Ricker
formula reduces to its (positive) amplitude factor. -/
theorem ricker_center : ricker (2 * nt - 1) sigma 5000
    = 2 / (Real.sqrt (3 * sigma) * Real.pi ^ ((1 : ℝ)/4)) := by
  have h : ((5000 : ℕ) : ℝ) - (((2 * nt - 1 : ℕ) : ℝ) - 1)/2 = 0 := by
    norm_num [nt]
  rw [ricker, h]
  norm_num

theorem src1_250_pos : 0 < src1 250 := by
  have h : src1 250 = ricker (2 * nt - 1) sigma 5000 := rfl
  rw [h, ricker_center]
  exact rickerAmp_pos

theorem timeAxisNum_eq_nt : timeAxisNum time_range = (nt : ℤ) := by
  norm_num [timeAxisNum, time_range, t0, tn, ot, dt, nt]

/-! ## The claims -/

/-- Claim C1 (corrected: counterexample).  The claim asserts that the
material-model arrays of the engines are defined at identical physical
coordinates — that the rectangular domain of the Devito notebook equals
the domain described by each SPECFEM2D mesh interface file.  This is
false: the Devito grid spans z ∈ [0, 5080] (the notebook extends the
4080 m column by 1000 m), while `interface2.p` spans z ∈ [0, 4080], and
the unnamed mesh file spans only x ∈ [0, 5920], z ∈ [0, 4000]. -/
theorem c1_domains_not_identical : ¬ specDomainsIdentical := by
  intro h
  have h2 : devitoZRange = rangeQ (meshZRange interface2Mesh) := h.2.1
  rw [show meshZRange interface2Mesh = (0, 4080) from by decide] at h2
  have h3 := congrArg Prod.snd h2
  norm_num [devitoZRange, rangeQ, nz, dz] at h3

/-- Claim C1 (corrected: amended).  What does hold of the code: the Devito
notebook uses xmax = 6000, zmax = 4080 + 1000 with nx = 1201,
nz = 817 + 200 at 5 m spacing, so its grid spans x ∈ [0, 6000] — the same
x-range as `interface2.p` — and z ∈ [0, 5080], which is the z-range of
`interface2.p` (top interface at 4080, covered by 817 points at 5 m)
extended by 1000 m; the unnamed mesh file describes the smaller domain
x ∈ [0, 5920], z ∈ [0, 4000], so the three domains are not identical. -/
theorem c1_domain_relation :
    meshXRange interface2Mesh = (0, 6000) ∧
    meshZRange interface2Mesh = (0, 4080) ∧
    meshXRange part000Mesh = (0, 5920) ∧
    meshZRange part000Mesh = (0, 4000) ∧
    devitoXRange = (0, xmax) ∧
    devitoZRange = (0, zmax) ∧
    xmax = ((meshXRange interface2Mesh).2 : ℚ) ∧
    zmax = ((meshZRange interface2Mesh).2 : ℚ) + 1000 ∧
    nz = 817 + 200 ∧
    ((817 : ℚ) - 1) * dz = ((meshZRange interface2Mesh).2 : ℚ) ∧
    xmax = ((nx : ℚ) - 1) * dx ∧
    rangeQ (meshXRange part000Mesh) ≠ devitoXRange := by
  rw [show meshXRange interface2Mesh = (0, 6000) from by decide,
      show meshZRange interface2Mesh = (0, 4080) from by decide,
      show meshXRange part000Mesh = (0, 5920) from by decide,
      show meshZRange part000Mesh = (0, 4000) from by decide]
  refine ⟨rfl, rfl, rfl, rfl, ?_, ?_, ?_, ?_, rfl, ?_, ?_, ?_⟩
  · norm_num [devitoXRange, nx, dx, xmax]
  · norm_num [devitoZRange, nz, dz, zmax]
  · norm_num [xmax]
  · norm_num [zmax]
  · norm_num [dz]
  · norm_num [xmax, nx, dx]
  · intro h
    have h2 := congrArg Prod.snd h
    norm_num [rangeQ, devitoXRange, nx, dx] at h2

/-- Claim C2 (corrected: counterexample).  The claim asserts that the
Dockerfile clones, builds and installs exactly three external
repositories, each pinned at a specific commit hash, and exposes a
notebook server port.  Neither Dockerfile version satisfies this:
`src/Dockerfile` contains only two `git clone` commands (fwi2d and
SPECFEM2D — no Devito), the SPECFEM2D clone block has no commit-hash
checkout (it tracks branch `devel`), and no EXPOSE instruction exists;
the unnamed variant clones three repositories but pins only fwi2d. -/
theorem c2_not_pinned_triple :
    ¬ specPinnedTripleBuild srcDockerfile ∧ ¬ specPinnedTripleBuild part001Dockerfile := by
  decide

/-- Claim C2 (corrected: amended).  The Dockerfiles install system
packages and the ispc code-generation toolchain and build external
repositories, but only fwi2d is pinned at a commit hash:
`src/Dockerfile` clones fwi2d (pinned at 1b20e7ee…) and SPECFEM2D
(branch `devel`, unpinned) — Devito is absent; the unnamed variant clones
SPECFEM2D (unpinned), Devito (unpinned) and fwi2d (pinned at 4eaafed…).
Neither version contains an EXPOSE instruction: the notebook-server port
is fixed only by the README's `docker run -p 8080:8080` and jupyter
commands, while the jupyter server software itself is pip-installed by
both Dockerfiles. -/
theorem c2_build_structure :
    cloneBlocks srcDockerfile =
      [(["git clone https://github.com/nmbader/fwi2d.git"],
        ["git checkout 1b20e7ee0bbe06eb43cbee18c91d7ed29809a8e4"]),
       (["git clone --recursive --branch devel https://github.com/geodynamics/specfem2d.git"],
        [])] ∧
    cloneBlocks part001Dockerfile =
      [(["git clone --recursive --branch devel https://github.com/geodynamics/specfem2d.git"],
        []),
       (["git clone https://github.com/devitocodes/devito.git"], []),
       (["git clone https://github.com/nmbader/fwi2d.git"],
        ["git checkout 4eaafedea7f58a944c5278661d6f59ec5548799b"])] ∧
    hasExpose srcDockerfile = false ∧
    hasExpose part001Dockerfile = false ∧
    (allCmds srcDockerfile).any (strBegins "apt-get") = true ∧
    (allCmds srcDockerfile).any (strHasSub "jupyter") = true ∧
    (allCmds srcDockerfile).any (strBegins "wget https://github.com/ispc/") = true ∧
    (allCmds part001Dockerfile).any (strHasSub "jupyter") = true := by
  decide

/-- Claim C3 (confirmed).  Both mesh description files in the repository
conform to the line-oriented format: with `#`-comment lines ignored, the
first data value is the interface count 3, each of the 3 interfaces is a
point count followed by exactly that many x,z pairs, and exactly
3 - 1 = 2 per-layer spectral-element counts follow, with nothing after
them. -/
theorem c3_mesh_files_conform :
    parseMeshLines interface2Lines =
      some ⟨3, [[(0, 0), (6000, 0)], [(0, 2880), (6000, 2880)], [(0, 4080), (6000, 4080)]],
            [72, 30]⟩ ∧
    parseMeshLines part000Lines =
      some ⟨3, [[(0, 0), (5920, 0)], [(0, 2880), (5920, 2880)], [(0, 4000), (5920, 4000)]],
            [144, 56]⟩ := by
  decide

/-- Claim C4 (confirmed).  In the notebook's execution trace, classified
by the five pipeline phases (1 define model grid, 2 source/receiver
geometry and source time function, 3 invoke the engine, 4 extract
receiver time series, 5 persist to disk), every phase occurs and the
phase sequence is nondecreasing: no later step precedes an earlier
one. -/
theorem c4_pipeline_order :
    sortedNondec (notebookTrace.filterMap phase) = true ∧
    1 ∈ notebookTrace.filterMap phase ∧
    2 ∈ notebookTrace.filterMap phase ∧
    3 ∈ notebookTrace.filterMap phase ∧
    4 ∈ notebookTrace.filterMap phase ∧
    5 ∈ notebookTrace.filterMap phase := by
  decide

/-- Claim C5 (confirmed).  The persisted array `allrec` has shape
(3, nt); its row 0 is the negated rec1 trace (the xx-stress receiver),
row 1 the rec2 trace (horizontal particle velocity, v[0]) and row 2 the
rec3 trace (vertical particle velocity, v[1]); the interpolation terms
bind those quantities to the receivers in that order, and the trace
contains exactly one `np.save` call. -/
theorem c5_persisted_output :
    allrecShape = (3, nt) ∧
    (∀ r1 r2 r3 : ℕ → ℝ, ∀ t : ℕ,
      allrec r1 r2 r3 0 t = -(r1 t) ∧
      allrec r1 r2 r3 1 t = r2 t ∧
      allrec r1 r2 r3 2 t = r3 t) ∧
    notebookTrace.filter isInterpolation =
      [.buildInterpolation 1 .stressXX, .buildInterpolation 2 .velX,
       .buildInterpolation 3 .velZ] ∧
    notebookTrace.filter isExtractRow =
      [.extractRow 0 1 true, .extractRow 1 2 false, .extractRow 2 3 false] ∧
    (notebookTrace.filter isSaveStep).length = 1 := by
  refine ⟨rfl, ?_, rfl, rfl, rfl⟩
  intro r1 r2 r3 t
  refine ⟨?_, ?_, ?_⟩ <;> simp [allrec, setRow, allrecInit]

/-- Claim C6 (confirmed).  Every Devito constructor in the notebook that
takes a time axis — the `TimeAxis` itself, the `RickerSource`, and the
three `Receiver`s — receives the same `time_range`, whose start is
ot = 0, step dt = 0.5 ms, and sample count nt = 5001; and the source
coordinates are assigned exactly once in the whole run, to [sx, sz]. -/
theorem c6_time_axis_shared :
    notebookTrace.filterMap axisOfStep =
      [time_range, time_range, time_range, time_range, time_range] ∧
    time_range.start = ot ∧
    time_range.step = dt ∧
    timeAxisNum time_range = (nt : ℤ) ∧
    notebookTrace.filter isSetSourceCoords = [Step.setSourceCoords sx sz] := by
  exact ⟨rfl, rfl, rfl, timeAxisNum_eq_nt, rfl⟩

/-- Claim C7 (confirmed).  The notebook's control flow is a straight-line
composition with no handler: when any external stage (model construction,
source building, operator compilation, operator application, file write)
fails with an exception `e`, the whole run fails with exactly that `e`,
and when every stage succeeds the run performs the final save — there is
no recovery or alternative branch. -/
theorem c7_error_propagation {E M S O R A : Type} (e : E) (m : M) (s : S) (o : O) (r : R)
    (bs : M → Except E S) (bo : M → S → Except E O) (ao : O → Except E R)
    (sv : R → Except E A) :
    notebookRun (Except.error e) bs bo ao sv = Except.error e ∧
    notebookRun (Except.ok m) (fun _ => Except.error e) bo ao sv = Except.error e ∧
    notebookRun (Except.ok m) (fun _ => Except.ok s) (fun _ _ => Except.error e) ao sv
      = Except.error e ∧
    notebookRun (Except.ok m) (fun _ => Except.ok s) (fun _ _ => Except.ok o)
      (fun _ => Except.error e) sv = Except.error e ∧
    notebookRun (Except.ok m) (fun _ => Except.ok s) (fun _ _ => Except.ok o)
      (fun _ => Except.ok r) sv = sv r :=
  ⟨rfl, rfl, rfl, rfl, rfl⟩

/-- Claim C8 (confirmed).  The wavelet construction is in-bounds and
well-defined: `signal.ricker(2*nt-1, sigma)` has 2*nt-1 = 10001 samples;
the slice [4750 : 4750+nt] stays in bounds (4750 + nt ≤ 2*nt - 1) and has
exactly nt elements; the maximum of the sliced wavelet is strictly
positive (so the normalization divides by a nonzero value); and the
source data array has nt = `TimeAxis.num` rows, so `src.data[:,0] = src1`
is shape-compatible. -/
theorem c8_wavelet_wellformed :
    2 * nt - 1 = 10001 ∧
    4750 + nt ≤ 2 * nt - 1 ∧
    sliceLen 4750 (4750 + nt) (2 * nt - 1) = nt ∧
    0 < src1Max ∧
    timeAxisNum time_range = (nt : ℤ) := by
  refine ⟨by decide, by decide, by decide, ?_, timeAxisNum_eq_nt⟩
  rw [src1Max, Finset.lt_sup'_iff]
  exact ⟨250, Finset.mem_range.mpr (by decide), src1_250_pos⟩

/-- Claim C9 (confirmed).  After the model-construction cell the material
arrays are laterally homogeneous and two-valued in depth: for depth rows
z ≤ nza (the acoustic layer, including the interface row nza itself) the
values are vp = 1.5, vs = 0, rho = 1 with derived mu = 0 and buoyancy
b = 1, and for rows z > nza the elastic values vp = 3, vs = 1,
rho = 2.5. -/
theorem c9_material_layers (x z : ℕ) (hx : x < nx) (hz : z < nz) :
    (∀ c : Fin 3, ∀ x2 : ℕ, aemodel c x z = aemodel c x2 z) ∧
    (z ≤ nza →
      aemodel 0 x z = vpa ∧ aemodel 1 x z = vsa ∧ aemodel 2 x z = rhoa ∧
      mu x z = 0 ∧ b x z = 1) ∧
    (nza < z →
      aemodel 0 x z = vpe ∧ aemodel 1 x z = vse ∧ aemodel 2 x z = rhoe) := by
  refine ⟨fun c x2 => rfl, ?_, ?_⟩
  · intro hza
    rcases Nat.lt_or_ge z nza with h | h
    · have hne : z ≠ nza := Nat.ne_of_lt h
      simp [aemodel, aemodelStage2, aemodelStage1, acousticVal, mu, b, hne, h, vsa, rhoa]
    · have heq : z = nza := le_antisymm hza h
      simp [aemodel, heq, acousticVal, mu, b, vsa, rhoa]
  · intro hza
    have hne : z ≠ nza := by omega
    have hnlt : ¬ z < nza := by omega
    simp [aemodel, aemodelStage2, aemodelStage1, elasticVal, hne, hnlt]

/-- Witness for claim C9, at the concrete grid point (x, z) = (0, 0). -/
theorem c9_material_layers_witness :
    (0 < nx ∧ 0 < nz) ∧
    ((∀ c : Fin 3, ∀ x2 : ℕ, aemodel c 0 0 = aemodel c x2 0) ∧
     ((0 : ℕ) ≤ nza →
       aemodel 0 0 0 = vpa ∧ aemodel 1 0 0 = vsa ∧ aemodel 2 0 0 = rhoa ∧
       mu 0 0 = 0 ∧ b 0 0 = 1) ∧
     (nza < 0 →
       aemodel 0 0 0 = vpe ∧ aemodel 1 0 0 = vse ∧ aemodel 2 0 0 = rhoe)) :=
  ⟨⟨by decide, by decide⟩, c9_material_layers 0 0 (by decide) (by decide)⟩

/-- Claim C10 (confirmed).  In both mesh interface files every interface
is horizontal, the interfaces appear in strictly increasing z order,
there is exactly one layer element count per gap between consecutive
interfaces, and all layers share one element height: 40 m in
`interface2.p` (2880 = 40·72, 1200 = 40·30) and 20 m in the unnamed file
(2880 = 20·144, 1120 = 20·56). -/
theorem c10_mesh_geometry :
    meshGeometryOk interface2Lines 40 = true ∧
    meshGeometryOk part000Lines 20 = true := by
  decide

end SbpSat
